import Mathlib

/-!
Verification of the geofenced attendance-tracking API (`src/main.py`).

Embedding conventions:
* Python `float` values are modelled as exact rationals (`ℚ`); the geodesic
  distance returned by the external `geopy` library is additionally modelled
  over `ℝ` (see `geodesic` below).
* `uuid.UUID` values are modelled as natural numbers (`UUID := ℕ`); the random
  `uuid4()` generator is modelled by passing the freshly generated identifier
  as an explicit argument to each creating operation.
* Python dictionaries preserve insertion order, so each `*_db` dictionary is
  modelled as an association list to which new bindings are appended.
* `datetime.datetime.utcnow()` is modelled by passing the current instant as an
  explicit `now : ℕ` argument.
* Raising `HTTPException` / pydantic `ValidationError` is modelled with
  `Except`: each endpoint returns the result together with the (possibly
  unchanged) store state.
-/

/-- Identifiers (`uuid.UUID`) are modelled as natural numbers. -/
abbrev UUID := Nat

/-- `MAX_CHECKIN_DISTANCE_METERS = 1000` from `src/main.py` line 12. -/
def MAX_CHECKIN_DISTANCE_METERS : ℚ := 1000

/-- The `GeoPoint` pydantic model: a GeoJSON Point.  The `type` field is the
literal string `"Point"` on every instance, so only the `coordinates` pair
(longitude, latitude) carries information. -/
structure GeoPoint where
  coordinates : ℚ × ℚ
deriving DecidableEq, Repr

/-- The `validate_coordinates` validator of `GeoPoint` (lines 26-33): checks
`-180 <= longitude <= 180` and `-90 <= latitude <= 90`, raising `ValueError`
(surfaced by pydantic as a `ValidationError`) otherwise. -/
def validate_coordinates (v : ℚ × ℚ) : Except String (ℚ × ℚ) :=
  let longitude := v.1
  let latitude := v.2
  if ¬(-180 ≤ longitude ∧ longitude ≤ 180) then
    Except.error "Longitude must be between -180 and 180"
  else if ¬(-90 ≤ latitude ∧ latitude ≤ 90) then
    Except.error "Latitude must be between -90 and 90"
  else
    Except.ok v

/-- Constructing a `GeoPoint(coordinates=v)`: pydantic runs the validator and
stores the returned pair on success. -/
def GeoPoint.construct (v : ℚ × ℚ) : Except String GeoPoint :=
  (validate_coordinates v).map fun w => ⟨w⟩

/-- The `Organization` model (lines 38-43). -/
structure Organization where
  name : String
  location : GeoPoint
  id : UUID
deriving DecidableEq, Repr

/-- The request body `OrganizationBase` (lines 38-40). -/
structure OrganizationBase where
  name : String
  location : GeoPoint
deriving DecidableEq, Repr

/-- The `Employee` model (lines 46-51). -/
structure Employee where
  name : String
  organization_id : UUID
  id : UUID
deriving DecidableEq, Repr

/-- The request body `EmployeeBase` (lines 46-48). -/
structure EmployeeBase where
  name : String
  organization_id : UUID
deriving DecidableEq, Repr

/-- The `Attendance` model (lines 54-62).  `timestamp` is the creation instant
(`datetime.utcnow`), modelled as a natural number. -/
structure Attendance where
  employee_id : UUID
  location : GeoPoint
  id : UUID
  timestamp : Nat
  organization_id : Option UUID
  distance_meters : Option ℚ
deriving DecidableEq, Repr

/-- The request body `CheckInRequest` (lines 66-68). -/
structure CheckInRequest where
  employee_id : UUID
  location : GeoPoint
deriving DecidableEq, Repr

/-- The errors the endpoints raise.  In the source they are all
`HTTPException`s distinguished by status code and detail string; the geofence
rejection embeds the computed distance formatted to two decimal places and the
allowed threshold in its detail string, which we model structurally. -/
inductive ApiError where
  /-- `HTTPException(404, detail)` -/
  | notFound (detail : String)
  /-- `HTTPException(409, detail)` -/
  | conflict (detail : String)
  /-- `HTTPException(400, ...)` from the geofence branch of `check_in`
  (lines 164-171), carrying the displayed (2-decimal-rounded) distance and the
  allowed threshold. -/
  | geofenceViolation (distance : ℚ) (allowed : ℚ)
deriving DecidableEq, Repr

/-- The three in-memory stores (lines 15-17): Python dicts keyed by `UUID`,
iterated in insertion order, hence association lists appended at the tail. -/
structure State where
  organizations_db : List (UUID × Organization)
  employees_db : List (UUID × Employee)
  attendance_db : List (UUID × Attendance)
deriving DecidableEq, Repr

/-- The empty store, the state at process start. -/
def State.empty : State := ⟨[], [], []⟩

/-- `round(x, 2)` of the source (line 178): rounding to two decimal places.
Python rounds ties to even; the model uses Mathlib `round` (ties up), which
agrees with it off ties, and no claim depends on tie behaviour. -/
def round2 (x : ℚ) : ℚ := (round (x * 100) : ℤ) / 100

/-- Helper `get_employee_or_404` (lines 79-83). -/
def get_employee_or_404 (st : State) (employee_id : UUID) : Except ApiError Employee :=
  match st.employees_db.lookup employee_id with
  | some employee => Except.ok employee
  | none =>
    Except.error (ApiError.notFound ("Employee with id " ++ toString employee_id ++ " not found"))

/-- Helper `get_organization_or_404` (lines 85-89). -/
def get_organization_or_404 (st : State) (org_id : UUID) : Except ApiError Organization :=
  match st.organizations_db.lookup org_id with
  | some organization => Except.ok organization
  | none =>
    Except.error (ApiError.notFound ("Organization with id " ++ toString org_id ++ " not found"))

/-- `POST /organizations` (`create_organization`, lines 112-124).  `freshId` is
the identifier produced by `uuid.uuid4()`. -/
def create_organization (freshId : UUID) (st : State) (org_data : OrganizationBase) :
    Except ApiError Organization × State :=
  let new_org : Organization := { name := org_data.name, location := org_data.location, id := freshId }
  if (st.organizations_db.lookup new_org.id).isSome then
    (Except.error (ApiError.conflict "Organization ID conflict"), st)
  else
    (Except.ok new_org,
     { st with organizations_db := st.organizations_db ++ [(new_org.id, new_org)] })

/-- `GET /organizations` (`list_organizations`, lines 132-134):
`list(organizations_db.values())`. -/
def list_organizations (st : State) : List Organization :=
  st.organizations_db.map (·.2)

/-- `POST /employees` (`create_employee`, lines 223-238). -/
def create_employee (freshId : UUID) (st : State) (employee_data : EmployeeBase) :
    Except ApiError Employee × State :=
  match get_organization_or_404 st employee_data.organization_id with
  | Except.error e => (Except.error e, st)
  | Except.ok _ =>
    let new_employee : Employee :=
      { name := employee_data.name, organization_id := employee_data.organization_id, id := freshId }
    if (st.employees_db.lookup new_employee.id).isSome then
      (Except.error (ApiError.conflict "Employee ID conflict"), st)
    else
      (Except.ok new_employee,
       { st with employees_db := st.employees_db ++ [(new_employee.id, new_employee)] })

/-- `GET /employees` (`list_employees`, lines 246-248). -/
def list_employees (st : State) : List Employee :=
  st.employees_db.map (·.2)

/-- `GET /attendance` (`list_attendance`, lines 193-195). -/
def list_attendance (st : State) : List Attendance :=
  st.attendance_db.map (·.2)

/-- `POST /attendance/checkin` (`check_in`, lines 145-185).  The distance
computation `calculate_distance_meters` delegates to the external `geopy`
library, so `check_in` is parameterised by the distance function `dist`;
`freshId` models `uuid.uuid4()` and `now` models `datetime.utcnow()`. -/
def check_in (dist : GeoPoint → GeoPoint → ℚ) (freshId : UUID) (now : Nat)
    (st : State) (check_in_data : CheckInRequest) : Except ApiError Attendance × State :=
  match get_employee_or_404 st check_in_data.employee_id with
  | Except.error e => (Except.error e, st)
  | Except.ok employee =>
    match get_organization_or_404 st employee.organization_id with
    | Except.error e => (Except.error e, st)
    | Except.ok organization =>
      let distance := dist check_in_data.location organization.location
      if distance > MAX_CHECKIN_DISTANCE_METERS then
        (Except.error (ApiError.geofenceViolation (round2 distance) MAX_CHECKIN_DISTANCE_METERS), st)
      else
        let attendance_record : Attendance :=
          { employee_id := employee.id
            location := check_in_data.location
            id := freshId
            timestamp := now
            organization_id := some organization.id
            distance_meters := some (round2 distance) }
        if (st.attendance_db.lookup attendance_record.id).isSome then
          (Except.error (ApiError.conflict "Attendance record ID conflict"), st)
        else
          (Except.ok attendance_record,
           { st with attendance_db := st.attendance_db ++ [(attendance_record.id, attendance_record)] })

/-- Modelled from the spec: the external `geopy.distance.geodesic` function
(imported on line 8 of `src/main.py`; its implementation is not part of this
repository).  Per the spec it is the great-circle (geodesic) distance between
two points given as (latitude, longitude) pairs in degrees, for which "any
geodesic formula" is acceptable; we use the standard spherical law of cosines
over the reals. -/
noncomputable def geodesic (c1 c2 : ℝ × ℝ) : ℝ :=
  let φ1 := c1.1 * Real.pi / 180
  let φ2 := c2.1 * Real.pi / 180
  let lam1 := c1.2 * Real.pi / 180
  let lam2 := c2.2 * Real.pi / 180
  6371008.8 * Real.arccos
    (Real.sin φ1 * Real.sin φ2 + Real.cos φ1 * Real.cos φ2 * Real.cos (lam1 - lam2))

/-- `calculate_distance_meters` (lines 91-96): swaps each stored
(longitude, latitude) pair into the (latitude, longitude) order `geodesic`
expects. -/
noncomputable def calculate_distance_meters (point1 point2 : GeoPoint) : ℝ :=
  geodesic ((point1.coordinates.2 : ℝ), (point1.coordinates.1 : ℝ))
    ((point2.coordinates.2 : ℝ), (point2.coordinates.1 : ℝ))

/-- Every organization is stored under its own `id` (`organizations_db[new_org.id]
= new_org` on line 123); true in every reachable state. -/
def OrgsWellKeyed (st : State) : Prop :=
  ∀ p ∈ st.organizations_db, p.2.id = p.1

/-- The state invariant of claim C10: every stored Attendance record carries a
non-null `organization_id` referencing an existing Organization and a non-null
`distance_meters` within the check-in threshold. -/
def AttendanceInvariant (st : State) : Prop :=
  ∀ p ∈ st.attendance_db, ∃ oid, p.2.organization_id = some oid ∧
    (st.organizations_db.lookup oid).isSome ∧
    ∃ d, p.2.distance_meters = some d ∧ d ≤ MAX_CHECKIN_DISTANCE_METERS

/-! ### Concrete fixtures (the spec's §8 scenarios) used by witnesses -/

/-- The organization location fixture `(lon=0, lat=0)`. -/
def gpZero : GeoPoint := ⟨(0, 0)⟩

/-- The acceptance fixture `(lon=0, lat=0.005)`. -/
def gpNear : GeoPoint := ⟨(0, 1/200)⟩

/-- The rejection fixture `(lon=0, lat=0.05)`. -/
def gpFar : GeoPoint := ⟨(0, 1/20)⟩

/-- A sample organization at `gpZero` stored under id 1. -/
def orgSample : Organization := { name := "Example Corp", location := gpZero, id := 1 }

/-- A sample employee of `orgSample` stored under id 2. -/
def empSample : Employee := { name := "Jane Doe", organization_id := 1, id := 2 }

/-- A sample reachable state holding `orgSample` and `empSample`. -/
def stSample : State :=
  { organizations_db := [(1, orgSample)]
    employees_db := [(2, empSample)]
    attendance_db := [] }

/-- A concrete computable stand-in distance function (≈111 km per degree of
latitude difference) used to instantiate `check_in` witnesses; it sends the
spec fixtures `gpNear`/`gpFar` (paired with `gpZero`) to 555 m and 5550 m just
as the spec's scenarios expect. -/
def distSample : GeoPoint → GeoPoint → ℚ :=
  fun p q => (p.coordinates.2 - q.coordinates.2) * 111000

/-! ### Helper lemmas about association-list lookup -/

theorem lookup_append {β : Type} (a : UUID) (l1 l2 : List (UUID × β)) :
    List.lookup a (l1 ++ l2) = ((List.lookup a l1).orElse fun _ => List.lookup a l2) := by
  induction l1 with
  | nil => simp [List.lookup]
  | cons hd tl ih =>
    by_cases h : a = hd.1
    · simp [List.lookup, h]
    · have hb : (a == hd.1) = false := beq_false_of_ne h
      simpa [List.lookup, hb] using ih

theorem lookup_mem {β : Type} {a : UUID} {b : β} {l : List (UUID × β)}
    (h : List.lookup a l = some b) : (a, b) ∈ l := by
  induction l with
  | nil => simp [List.lookup] at h
  | cons hd tl ih =>
    by_cases hk : a = hd.1
    · subst hk
      simp [List.lookup] at h
      simp [h]
      left
      exact Prod.ext rfl h.symm
    · have hb : (a == hd.1) = false := beq_false_of_ne hk
      simp [List.lookup, hb] at h
      exact List.mem_cons_of_mem _ (ih h)

/-- `round` is monotone (Mathlib's `round x = ⌊x + 1/2⌋`). -/
theorem round_monotone {x y : ℚ} (h : x ≤ y) : round x ≤ round y := by
  rw [round_eq, round_eq]
  exact Int.floor_le_floor (by linarith)

/-- Rounding to two decimals never pushes a value past the threshold. -/
theorem round2_le_of_le {d : ℚ} (h : d ≤ MAX_CHECKIN_DISTANCE_METERS) :
    round2 d ≤ MAX_CHECKIN_DISTANCE_METERS := by
  have h1 : d * 100 ≤ (100000 : ℚ) := by
    have : MAX_CHECKIN_DISTANCE_METERS = 1000 := rfl
    nlinarith [h]
  have h2 : round (d * 100) ≤ round ((100000 : ℚ)) := round_monotone h1
  have h3 : round ((100000 : ℚ)) = (100000 : ℤ) := by
    norm_num
  rw [h3] at h2
  have h4 : ((round (d * 100) : ℤ) : ℚ) ≤ ((100000 : ℤ) : ℚ) := by exact_mod_cast h2
  unfold round2 MAX_CHECKIN_DISTANCE_METERS
  rw [div_le_iff₀ (by norm_num : (0:ℚ) < 100)]
  calc ((round (d * 100) : ℤ) : ℚ) ≤ 100000 := by exact_mod_cast h4
    _ = 1000 * 100 := by norm_num

/-! ### Shared behaviour lemmas for the endpoints -/

theorem create_organization_ok (freshId : UUID) (st : State) (d : OrganizationBase)
    (h : st.organizations_db.lookup freshId = none) :
    create_organization freshId st d =
      (Except.ok { name := d.name, location := d.location, id := freshId },
       { st with organizations_db :=
          st.organizations_db ++ [(freshId, { name := d.name, location := d.location, id := freshId })] }) := by
  simp [create_organization, h]

theorem check_in_err_of_gt (dist : GeoPoint → GeoPoint → ℚ) (freshId : UUID) (now : Nat)
    (st : State) (req : CheckInRequest) (employee : Employee) (organization : Organization)
    (hemp : st.employees_db.lookup req.employee_id = some employee)
    (horg : st.organizations_db.lookup employee.organization_id = some organization)
    (hgt : dist req.location organization.location > MAX_CHECKIN_DISTANCE_METERS) :
    check_in dist freshId now st req =
      (Except.error (ApiError.geofenceViolation
        (round2 (dist req.location organization.location)) MAX_CHECKIN_DISTANCE_METERS), st) := by
  simp [check_in, get_employee_or_404, get_organization_or_404, hemp, horg, hgt]

theorem check_in_ok_of_le (dist : GeoPoint → GeoPoint → ℚ) (freshId : UUID) (now : Nat)
    (st : State) (req : CheckInRequest) (employee : Employee) (organization : Organization)
    (hemp : st.employees_db.lookup req.employee_id = some employee)
    (horg : st.organizations_db.lookup employee.organization_id = some organization)
    (hle : dist req.location organization.location ≤ MAX_CHECKIN_DISTANCE_METERS)
    (hfresh : st.attendance_db.lookup freshId = none) :
    check_in dist freshId now st req =
      (Except.ok
        { employee_id := employee.id
          location := req.location
          id := freshId
          timestamp := now
          organization_id := some organization.id
          distance_meters := some (round2 (dist req.location organization.location)) },
       { st with attendance_db := st.attendance_db ++
          [(freshId,
            { employee_id := employee.id
              location := req.location
              id := freshId
              timestamp := now
              organization_id := some organization.id
              distance_meters := some (round2 (dist req.location organization.location)) })] }) := by
  simp [check_in, get_employee_or_404, get_organization_or_404, hemp, horg, not_lt.mpr hle, hfresh]

theorem check_in_conflict_of_dup (dist : GeoPoint → GeoPoint → ℚ) (freshId : UUID) (now : Nat)
    (st : State) (req : CheckInRequest) (employee : Employee) (organization : Organization)
    (a : Attendance)
    (hemp : st.employees_db.lookup req.employee_id = some employee)
    (horg : st.organizations_db.lookup employee.organization_id = some organization)
    (hle : dist req.location organization.location ≤ MAX_CHECKIN_DISTANCE_METERS)
    (hdup : st.attendance_db.lookup freshId = some a) :
    check_in dist freshId now st req =
      (Except.error (ApiError.conflict "Attendance record ID conflict"), st) := by
  simp [check_in, get_employee_or_404, get_organization_or_404, hemp, horg, not_lt.mpr hle, hdup]

/-! ### Claim theorems -/

/-- Claim C4: constructing a GeoPoint from a (longitude, latitude) pair fails
with a `ValidationError` unless the longitude lies in `[-180, 180]` and the
latitude in `[-90, 90]`; every in-range pair constructs successfully, and a
successful construction stores exactly the validated pair, so an out-of-range
pair is never stored. -/
theorem geopoint_construct_ok_iff_in_range (v : ℚ × ℚ) :
    ((∃ e, GeoPoint.construct v = Except.error e) ↔
      ¬(-180 ≤ v.1 ∧ v.1 ≤ 180 ∧ -90 ≤ v.2 ∧ v.2 ≤ 90)) ∧
    ((-180 ≤ v.1 ∧ v.1 ≤ 180 ∧ -90 ≤ v.2 ∧ v.2 ≤ 90) →
      GeoPoint.construct v = Except.ok ⟨v⟩) := by
  unfold GeoPoint.construct validate_coordinates
  by_cases ha : -180 ≤ v.1 <;> by_cases hb : v.1 ≤ 180 <;>
    by_cases hc : -90 ≤ v.2 <;> by_cases hd : v.2 ≤ 90 <;>
    simp [ha, hb, hc, hd, Except.map]

/-- Witness for C4 at the spec's fixture `(longitude=-73.99, latitude=40.73)`. -/
theorem geopoint_construct_ok_iff_in_range_witness :
    (-180 ≤ ((-7399 : ℚ)/100) ∧ ((-7399 : ℚ)/100) ≤ 180 ∧
      -90 ≤ ((4073 : ℚ)/100) ∧ ((4073 : ℚ)/100) ≤ 90) ∧
    GeoPoint.construct ((-7399 : ℚ)/100, (4073 : ℚ)/100) =
      Except.ok ⟨((-7399 : ℚ)/100, (4073 : ℚ)/100)⟩ :=
  ⟨by norm_num, (geopoint_construct_ok_iff_in_range _).2 (by norm_num)⟩

/-- Claim C5: the distance function is symmetric — here exactly, which is
stronger than the 0.01 m tolerance the spec allows. -/
theorem calculate_distance_meters_symm (a b : GeoPoint) :
    calculate_distance_meters a b = calculate_distance_meters b a := by
  simp only [calculate_distance_meters, geodesic]
  congr 1
  congr 1
  have h : ((a.coordinates.1 : ℝ) * Real.pi / 180 - (b.coordinates.1 : ℝ) * Real.pi / 180) =
      -((b.coordinates.1 : ℝ) * Real.pi / 180 - (a.coordinates.1 : ℝ) * Real.pi / 180) := by ring
  rw [h, Real.cos_neg]
  ring

/-- Counterexample to claim C3: the two structurally distinct GeoPoints
`(lon=0, lat=90)` and `(lon=10, lat=90)` both denote the north pole, so their
distance is zero although they are not equal — "zero iff a == b" fails. -/
theorem distance_zero_without_equality :
    calculate_distance_meters ⟨(0, 90)⟩ ⟨(10, 90)⟩ = 0 ∧
    (⟨(0, 90)⟩ : GeoPoint) ≠ ⟨(10, 90)⟩ := by
  constructor
  · simp only [calculate_distance_meters, geodesic]
    push_cast
    have h90 : (90 : ℝ) * Real.pi / 180 = Real.pi / 2 := by ring
    rw [h90, Real.sin_pi_div_two, Real.cos_pi_div_two]
    norm_num [Real.arccos_one]
  · decide

/-- Claim C3 (amended): the distance from any GeoPoint to itself is zero;
zero distance does not conversely force structural equality, since distinct
coordinate pairs can denote the same physical point. -/
theorem calculate_distance_meters_self (a : GeoPoint) :
    calculate_distance_meters a a = 0 := by
  simp only [calculate_distance_meters, geodesic, sub_self, Real.cos_zero, mul_one]
  have h : Real.sin ((a.coordinates.2 : ℝ) * Real.pi / 180) *
        Real.sin ((a.coordinates.2 : ℝ) * Real.pi / 180) +
      Real.cos ((a.coordinates.2 : ℝ) * Real.pi / 180) *
        Real.cos ((a.coordinates.2 : ℝ) * Real.pi / 180) = 1 := by
    rw [← Real.sin_sq_add_cos_sq ((a.coordinates.2 : ℝ) * Real.pi / 180)]
    ring
  rw [h, Real.arccos_one, mul_zero]

/-- Claim C1: when employee and organization resolve and the computed distance
strictly exceeds `MAX_CHECKIN_DISTANCE_METERS`, `check_in` fails with the
geofence violation carrying the 2-decimal-rounded distance and the threshold,
and the attendance collection is unchanged. -/
theorem check_in_rejects_beyond_threshold (dist : GeoPoint → GeoPoint → ℚ)
    (freshId : UUID) (now : Nat) (st : State) (req : CheckInRequest)
    (employee : Employee) (organization : Organization)
    (hemp : st.employees_db.lookup req.employee_id = some employee)
    (horg : st.organizations_db.lookup employee.organization_id = some organization)
    (hgt : dist req.location organization.location > MAX_CHECKIN_DISTANCE_METERS) :
    check_in dist freshId now st req =
      (Except.error (ApiError.geofenceViolation
        (round2 (dist req.location organization.location)) MAX_CHECKIN_DISTANCE_METERS), st) ∧
    (check_in dist freshId now st req).2.attendance_db = st.attendance_db := by
  have h := check_in_err_of_gt dist freshId now st req employee organization hemp horg hgt
  exact ⟨h, by rw [h]⟩

/-- Witness for C1 at the spec's rejection fixture `(lon=0, lat=0.05)`,
5550 m away under `distSample`. -/
theorem check_in_rejects_beyond_threshold_witness :
    stSample.employees_db.lookup 2 = some empSample ∧
    stSample.organizations_db.lookup empSample.organization_id = some orgSample ∧
    distSample gpFar orgSample.location > MAX_CHECKIN_DISTANCE_METERS ∧
    check_in distSample 7 0 stSample ⟨2, gpFar⟩ =
      (Except.error (ApiError.geofenceViolation
        (round2 (distSample gpFar orgSample.location)) MAX_CHECKIN_DISTANCE_METERS), stSample) :=
  ⟨rfl, rfl,
   by norm_num [distSample, gpFar, gpZero, orgSample, MAX_CHECKIN_DISTANCE_METERS],
   (check_in_rejects_beyond_threshold distSample 7 0 stSample ⟨2, gpFar⟩ empSample orgSample
      rfl rfl
      (by norm_num [distSample, gpFar, gpZero, orgSample, MAX_CHECKIN_DISTANCE_METERS])).1⟩

/-- Claim C2: when employee and organization resolve and the computed distance
does not exceed the threshold (and the generated identifier is fresh, as
`uuid4` guarantees up to the astronomically unlikely conflict), `check_in`
persists exactly one new Attendance record — with `distance_meters` the
2-decimal-rounded distance, `organization_id` the employee's organization and
`timestamp` the current instant — and returns it. -/
theorem check_in_accepts_within_threshold (dist : GeoPoint → GeoPoint → ℚ)
    (freshId : UUID) (now : Nat) (st : State) (req : CheckInRequest)
    (employee : Employee) (organization : Organization)
    (hemp : st.employees_db.lookup req.employee_id = some employee)
    (horg : st.organizations_db.lookup employee.organization_id = some organization)
    (hle : dist req.location organization.location ≤ MAX_CHECKIN_DISTANCE_METERS)
    (hfresh : st.attendance_db.lookup freshId = none) :
    check_in dist freshId now st req =
      (Except.ok
        { employee_id := employee.id
          location := req.location
          id := freshId
          timestamp := now
          organization_id := some organization.id
          distance_meters := some (round2 (dist req.location organization.location)) },
       { st with attendance_db := st.attendance_db ++
          [(freshId,
            { employee_id := employee.id
              location := req.location
              id := freshId
              timestamp := now
              organization_id := some organization.id
              distance_meters := some (round2 (dist req.location organization.location)) })] }) :=
  check_in_ok_of_le dist freshId now st req employee organization hemp horg hle hfresh

/-- Witness for C2 at the spec's acceptance fixture `(lon=0, lat=0.005)`,
555 m away under `distSample`. -/
theorem check_in_accepts_within_threshold_witness :
    distSample gpNear orgSample.location ≤ MAX_CHECKIN_DISTANCE_METERS ∧
    stSample.attendance_db.lookup 7 = none ∧
    check_in distSample 7 5 stSample ⟨2, gpNear⟩ =
      (Except.ok
        { employee_id := empSample.id
          location := gpNear
          id := 7
          timestamp := 5
          organization_id := some orgSample.id
          distance_meters := some (round2 (distSample gpNear orgSample.location)) },
       { stSample with attendance_db := stSample.attendance_db ++
          [(7,
            { employee_id := empSample.id
              location := gpNear
              id := 7
              timestamp := 5
              organization_id := some orgSample.id
              distance_meters := some (round2 (distSample gpNear orgSample.location)) })] }) :=
  ⟨by norm_num [distSample, gpNear, gpZero, orgSample, MAX_CHECKIN_DISTANCE_METERS], rfl,
   check_in_accepts_within_threshold distSample 7 5 stSample ⟨2, gpNear⟩ empSample orgSample
     rfl rfl
     (by norm_num [distSample, gpNear, gpZero, orgSample, MAX_CHECKIN_DISTANCE_METERS]) rfl⟩

/-- Claim C6: a check-in whose `employee_id` does not resolve fails with a
`NotFoundError` identifying the employee, and the attendance collection is
unchanged. -/
theorem check_in_unknown_employee (dist : GeoPoint → GeoPoint → ℚ)
    (freshId : UUID) (now : Nat) (st : State) (req : CheckInRequest)
    (hnone : st.employees_db.lookup req.employee_id = none) :
    check_in dist freshId now st req =
      (Except.error (ApiError.notFound
        ("Employee with id " ++ toString req.employee_id ++ " not found")), st) ∧
    (check_in dist freshId now st req).2.attendance_db = st.attendance_db := by
  refine ⟨?_, ?_⟩ <;> simp [check_in, get_employee_or_404, hnone]

/-- Witness for C6: checking in the unknown employee id 99. -/
theorem check_in_unknown_employee_witness :
    stSample.employees_db.lookup 99 = none ∧
    check_in distSample 7 0 stSample ⟨99, gpNear⟩ =
      (Except.error (ApiError.notFound
        ("Employee with id " ++ toString (99 : UUID) ++ " not found")), stSample) :=
  ⟨rfl, (check_in_unknown_employee distSample 7 0 stSample ⟨99, gpNear⟩ rfl).1⟩

/-- Claim C7: `create_employee` fails with `NotFoundError` when the given
organization does not exist, leaving the Employee collection (indeed the whole
state) unchanged; when it exists and the generated identifier is fresh, it
succeeds and stores the new Employee. -/
theorem create_employee_requires_organization (freshId : UUID) (st : State)
    (employee_data : EmployeeBase) :
    (st.organizations_db.lookup employee_data.organization_id = none →
      create_employee freshId st employee_data =
        (Except.error (ApiError.notFound
          ("Organization with id " ++ toString employee_data.organization_id ++
            " not found")), st)) ∧
    (∀ org, st.organizations_db.lookup employee_data.organization_id = some org →
      st.employees_db.lookup freshId = none →
      create_employee freshId st employee_data =
        (Except.ok
          { name := employee_data.name
            organization_id := employee_data.organization_id
            id := freshId },
         { st with employees_db := st.employees_db ++
            [(freshId,
              { name := employee_data.name
                organization_id := employee_data.organization_id
                id := freshId })] })) := by
  constructor
  · intro h
    simp [create_employee, get_organization_or_404, h]
  · intro org horg hfresh
    simp [create_employee, get_organization_or_404, horg, hfresh]

/-- Witness for C7: creating an employee of the missing organization 42 fails,
creating one of the existing organization 1 succeeds. -/
theorem create_employee_requires_organization_witness :
    stSample.organizations_db.lookup 42 = none ∧
    create_employee 5 stSample ⟨"Bob", 42⟩ =
      (Except.error (ApiError.notFound
        ("Organization with id " ++ toString (42 : UUID) ++ " not found")), stSample) ∧
    stSample.organizations_db.lookup 1 = some orgSample ∧
    create_employee 5 stSample ⟨"Bob", 1⟩ =
      (Except.ok { name := "Bob", organization_id := 1, id := 5 },
       { stSample with employees_db := stSample.employees_db ++
          [(5, { name := "Bob", organization_id := 1, id := 5 })] }) :=
  ⟨rfl, (create_employee_requires_organization 5 stSample ⟨"Bob", 42⟩).1 rfl,
   rfl, (create_employee_requires_organization 5 stSample ⟨"Bob", 1⟩).2 orgSample rfl rfl⟩

/-- Claim C8: after creating three organizations in order (with fresh, distinct
generated identifiers), `list_organizations` returns the previous listing
followed by the three new organizations in creation order; and, the model
being pure, listing twice with no intervening write trivially returns
identical sequences. -/
theorem list_organizations_insertion_order (st : State) (f1 f2 f3 : UUID)
    (d1 d2 d3 : OrganizationBase)
    (h1 : st.organizations_db.lookup f1 = none)
    (h2 : st.organizations_db.lookup f2 = none)
    (h3 : st.organizations_db.lookup f3 = none)
    (h12 : f1 ≠ f2) (h13 : f1 ≠ f3) (h23 : f2 ≠ f3) :
    list_organizations
        (create_organization f3
          (create_organization f2 (create_organization f1 st d1).2 d2).2 d3).2 =
      list_organizations st ++
        [{ name := d1.name, location := d1.location, id := f1 },
         { name := d2.name, location := d2.location, id := f2 },
         { name := d3.name, location := d3.location, id := f3 }] ∧
    list_organizations
        (create_organization f3
          (create_organization f2 (create_organization f1 st d1).2 d2).2 d3).2 =
      list_organizations
        (create_organization f3
          (create_organization f2 (create_organization f1 st d1).2 d2).2 d3).2 := by
  refine ⟨?_, rfl⟩
  have hne21 : (f2 == f1) = false := beq_false_of_ne (Ne.symm h12)
  have hne31 : (f3 == f1) = false := beq_false_of_ne (Ne.symm h13)
  have hne32 : (f3 == f2) = false := beq_false_of_ne (Ne.symm h23)
  have e1 := create_organization_ok f1 st d1 h1
  have l2 : (st.organizations_db ++
      [(f1, ({ name := d1.name, location := d1.location, id := f1 } : Organization))]).lookup f2 =
      none := by
    rw [lookup_append, h2]
    simp [List.lookup, hne21]
  have e2 := create_organization_ok f2
    { st with organizations_db := st.organizations_db ++
        [(f1, { name := d1.name, location := d1.location, id := f1 })] } d2 l2
  have l3 : ((st.organizations_db ++
      [(f1, ({ name := d1.name, location := d1.location, id := f1 } : Organization))]) ++
      [(f2, ({ name := d2.name, location := d2.location, id := f2 } : Organization))]).lookup f3 =
      none := by
    rw [lookup_append, lookup_append, h3]
    simp [List.lookup, hne31, hne32]
  have e3 := create_organization_ok f3
    { st with organizations_db := (st.organizations_db ++
        [(f1, { name := d1.name, location := d1.location, id := f1 })]) ++
        [(f2, { name := d2.name, location := d2.location, id := f2 })] } d3 l3
  simp only [e1, e2, e3]
  simp [list_organizations]

/-- Witness for C8: creating O1, O2, O3 from the empty store lists exactly
`[O1, O2, O3]`. -/
theorem list_organizations_insertion_order_witness :
    (State.empty.organizations_db.lookup 1 = none ∧ (1 : UUID) ≠ 2) ∧
    list_organizations
        (create_organization 3
          (create_organization 2
            (create_organization 1 State.empty ⟨"O1", gpZero⟩).2 ⟨"O2", gpZero⟩).2
          ⟨"O3", gpZero⟩).2 =
      list_organizations State.empty ++
        [{ name := "O1", location := gpZero, id := 1 },
         { name := "O2", location := gpZero, id := 2 },
         { name := "O3", location := gpZero, id := 3 }] :=
  ⟨⟨rfl, by decide⟩,
   (list_organizations_insertion_order State.empty 1 2 3 ⟨"O1", gpZero⟩ ⟨"O2", gpZero⟩
      ⟨"O3", gpZero⟩ rfl rfl rfl (by decide) (by decide) (by decide)).1⟩

/-- Claim C9: the geofence comparison is strict — a computed distance exactly
equal to `MAX_CHECKIN_DISTANCE_METERS` is accepted and produces an Attendance
record, and a geofence rejection occurs exactly when the distance strictly
exceeds the threshold. -/
theorem check_in_threshold_strict (dist : GeoPoint → GeoPoint → ℚ)
    (freshId : UUID) (now : Nat) (st : State) (req : CheckInRequest)
    (employee : Employee) (organization : Organization)
    (hemp : st.employees_db.lookup req.employee_id = some employee)
    (horg : st.organizations_db.lookup employee.organization_id = some organization) :
    (dist req.location organization.location = MAX_CHECKIN_DISTANCE_METERS →
      st.attendance_db.lookup freshId = none →
      (check_in dist freshId now st req).1 =
        Except.ok
          { employee_id := employee.id
            location := req.location
            id := freshId
            timestamp := now
            organization_id := some organization.id
            distance_meters := some (round2 (dist req.location organization.location)) }) ∧
    ((∃ d t, (check_in dist freshId now st req).1 =
        Except.error (ApiError.geofenceViolation d t)) ↔
      dist req.location organization.location > MAX_CHECKIN_DISTANCE_METERS) := by
  constructor
  · intro heq hfresh
    rw [check_in_ok_of_le dist freshId now st req employee organization hemp horg
      (le_of_eq heq) hfresh]
  · constructor
    · rintro ⟨d, t, hres⟩
      by_contra hng
      have hle : dist req.location organization.location ≤ MAX_CHECKIN_DISTANCE_METERS :=
        not_lt.mp hng
      cases hfl : st.attendance_db.lookup freshId with
      | none =>
        rw [check_in_ok_of_le dist freshId now st req employee organization hemp horg
          hle hfl] at hres
        simp at hres
      | some a =>
        rw [check_in_conflict_of_dup dist freshId now st req employee organization a hemp horg
          hle hfl] at hres
        simp at hres
    · intro hgt
      exact ⟨_, _, by
        rw [check_in_err_of_gt dist freshId now st req employee organization hemp horg hgt]⟩

/-- Witness for C9: a distance function computing exactly 1000 m leads to an
accepted check-in. -/
theorem check_in_threshold_strict_witness :
    (1000 : ℚ) = MAX_CHECKIN_DISTANCE_METERS ∧
    stSample.attendance_db.lookup 7 = none ∧
    (check_in (fun _ _ => (1000 : ℚ)) 7 0 stSample ⟨2, gpNear⟩).1 =
      Except.ok
        { employee_id := empSample.id
          location := gpNear
          id := 7
          timestamp := 0
          organization_id := some orgSample.id
          distance_meters := some (round2 (1000 : ℚ)) } :=
  ⟨rfl, rfl,
   (check_in_threshold_strict (fun _ _ => (1000 : ℚ)) 7 0 stSample ⟨2, gpNear⟩
      empSample orgSample rfl rfl).1 rfl rfl⟩

/-- If a key has a binding in `l1`, it keeps a binding in `l1 ++ l2`. -/
theorem lookup_isSome_append {β : Type} {a : UUID} {l1 : List (UUID × β)}
    (l2 : List (UUID × β)) (h : (l1.lookup a).isSome) :
    ((l1 ++ l2).lookup a).isSome := by
  rw [lookup_append]
  cases hl : l1.lookup a with
  | none => rw [hl] at h; simp at h
  | some b => simp [hl]

/-- Claim C10: if every organization is keyed by its own id (true in every
reachable state) and every stored Attendance record has a non-null
`organization_id` referencing an existing Organization together with a
non-null `distance_meters` within the threshold, then each of the three
mutating operations preserves both properties; the listing and lookup
endpoints do not mutate the state at all. -/
theorem attendance_invariant_preserved (st : State)
    (hwk : OrgsWellKeyed st) (hinv : AttendanceInvariant st) :
    (∀ f d, OrgsWellKeyed (create_organization f st d).2 ∧
      AttendanceInvariant (create_organization f st d).2) ∧
    (∀ f d, OrgsWellKeyed (create_employee f st d).2 ∧
      AttendanceInvariant (create_employee f st d).2) ∧
    (∀ dist f now req, OrgsWellKeyed (check_in dist f now st req).2 ∧
      AttendanceInvariant (check_in dist f now st req).2) := by
  refine ⟨?_, ?_, ?_⟩
  · intro f d
    by_cases hdup : (st.organizations_db.lookup f).isSome
    · simp only [create_organization, hdup, if_true]
      exact ⟨hwk, hinv⟩
    · simp only [create_organization, hdup, if_false]
      constructor
      · intro p hp
        rcases List.mem_append.mp hp with h | h
        · exact hwk p h
        · simp only [List.mem_singleton] at h
          subst h
          rfl
      · intro p hp
        obtain ⟨oid, hoid, hsome, d', hd', hle⟩ := hinv p hp
        exact ⟨oid, hoid, lookup_isSome_append _ hsome, d', hd', hle⟩
  · intro f d
    cases horg : st.organizations_db.lookup d.organization_id with
    | none =>
      simp only [create_employee, get_organization_or_404, horg]
      exact ⟨hwk, hinv⟩
    | some org =>
      by_cases hdup : (st.employees_db.lookup f).isSome
      · simp only [create_employee, get_organization_or_404, horg, hdup, if_true]
        exact ⟨hwk, hinv⟩
      · simp only [create_employee, get_organization_or_404, horg, hdup, if_false]
        exact ⟨hwk, hinv⟩
  · intro dist f now req
    cases hemp : st.employees_db.lookup req.employee_id with
    | none =>
      simp only [check_in, get_employee_or_404, hemp]
      exact ⟨hwk, hinv⟩
    | some employee =>
      cases horg : st.organizations_db.lookup employee.organization_id with
      | none =>
        simp only [check_in, get_employee_or_404, get_organization_or_404, hemp, horg]
        exact ⟨hwk, hinv⟩
      | some organization =>
        by_cases hgt : dist req.location organization.location > MAX_CHECKIN_DISTANCE_METERS
        · simp only [check_in, get_employee_or_404, get_organization_or_404, hemp, horg,
            hgt, if_true]
          exact ⟨hwk, hinv⟩
        · by_cases hdup : (st.attendance_db.lookup f).isSome
          · simp only [check_in, get_employee_or_404, get_organization_or_404, hemp, horg,
              hgt, if_false, hdup, if_true]
            exact ⟨hwk, hinv⟩
          · simp [check_in, get_employee_or_404, get_organization_or_404, hemp, horg,
              hgt, hdup]
            constructor
            · exact hwk
            · intro p hp
              rcases List.mem_append.mp hp with h | h
              · exact hinv p h
              · simp only [List.mem_singleton] at h
                subst h
                refine ⟨organization.id, rfl, ?_,
                  round2 (dist req.location organization.location), rfl,
                  round2_le_of_le (not_lt.mp hgt)⟩
                have hkey : organization.id = employee.organization_id :=
                  hwk _ (lookup_mem horg)
                rw [hkey, horg]
                rfl

/-- Witness for C10: the empty store satisfies both properties and keeps them
after creating an organization. -/
theorem attendance_invariant_preserved_witness :
    OrgsWellKeyed State.empty ∧ AttendanceInvariant State.empty ∧
    (OrgsWellKeyed (create_organization 1 State.empty ⟨"Example Corp", gpZero⟩).2 ∧
      AttendanceInvariant (create_organization 1 State.empty ⟨"Example Corp", gpZero⟩).2) :=
  ⟨by simp [OrgsWellKeyed, State.empty],
   by simp [AttendanceInvariant, State.empty],
   (attendance_invariant_preserved State.empty
      (by simp [OrgsWellKeyed, State.empty])
      (by simp [AttendanceInvariant, State.empty])).1 1 ⟨"Example Corp", gpZero⟩⟩
